import Mathlib

/-!
Verification of the `popolo/models.py` schema layer of django-popolo.

Shallow embedding: the module's declarative content (field definitions,
validators, the auxiliary-table generator, the pre-save signal wiring and
module-load configuration check) is translated into executable Lean
definitions, and the spec's claims are settled as theorems about them.

The `behaviors` module (Permalinkable, Timestampable, Dateframeable) is not
part of the given source tree; where a claim depends on its behaviour the
model is taken from the spec and marked `Modelled from the spec:`.
-/

set_option linter.unusedVariables false

/-! ## The date pattern

`RegexValidator(regex='^[0-9]{4}(-[0-9]{2}){0,2}$', ...)` used on
`Organization.dissolution_date` and `Organization.founding_date`
(models.py lines 188-201).  The regex anchors both ends, so a string
matches iff it is four digits followed by zero, one or two groups of a
dash and two digits. -/

/-- The anchored regex `^[0-9]{4}(-[0-9]{2}){0,2}$` as a predicate on the
character list of the candidate string: exactly the three shapes
`DDDD`, `DDDD-DD`, `DDDD-DD-DD` with `D` a character in `[0-9]`. -/
def datePattern : List Char → Bool
  | [y1, y2, y3, y4] =>
      y1.isDigit && y2.isDigit && y3.isDigit && y4.isDigit
  | [y1, y2, y3, y4, s1, m1, m2] =>
      y1.isDigit && y2.isDigit && y3.isDigit && y4.isDigit &&
      s1 == '-' && m1.isDigit && m2.isDigit
  | [y1, y2, y3, y4, s1, m1, m2, s2, d1, d2] =>
      y1.isDigit && y2.isDigit && y3.isDigit && y4.isDigit &&
      s1 == '-' && m1.isDigit && m2.isDigit &&
      s2 == '-' && d1.isDigit && d2.isDigit
  | _ => false

/-- Whether a string matches `^[0-9]{4}(-[0-9]{2}){0,2}$`. -/
def matchesDatePattern (s : String) : Bool :=
  datePattern s.data

theorem datePattern_length {cs : List Char} (h : datePattern cs = true) :
    cs.length ≤ 10 := by
  rw [datePattern.eq_def] at h
  split at h <;> simp_all

/-! ## Django `CharField` validation

`full_clean` on a `CharField(max_length=n, null=True, blank=True,
validators=vs)` accepts a missing value iff the field is nullable, and a
present string iff its length is within `max_length` and every attached
validator accepts it. -/

/-- Validation of one `CharField` value as run by `full_clean`. -/
def cleanCharField (value : Option String) (maxLength : Nat)
    (nullable : Bool) (validators : List (String → Bool)) : Bool :=
  match value with
  | none => nullable
  | some s => decide (s.length ≤ maxLength) && validators.all (fun v => v s)

/-- `Person.birth_date` / `Person.death_date` (models.py lines 154-155):
`CharField(max_length=10, null=True, blank=True)` — no validators are
attached in the source. -/
def personDateFieldAccepts (value : Option String) : Bool :=
  cleanCharField value 10 true []

/-- `Organization.dissolution_date` / `Organization.founding_date`
(models.py lines 188-201): `CharField(max_length=10, blank=True,
null=True, validators=[RegexValidator(regex='^[0-9]\x7b4\x7d(-[0-9]\x7b2\x7d)\x7b0,2\x7d$')])`. -/
def organizationDateFieldAccepts (value : Option String) : Bool :=
  cleanCharField value 10 true [matchesDatePattern]

/-! ## Entities and their base classes -/

/-- The mixins / base classes an entity class lists (models.py lines
135, 178, 217, 241). `Permalinkable`, `Timestampable` and `Dateframeable`
come from `popolo.behaviors`. -/
inductive Mixin where
  | dateframeable
  | timestampable
  | permalinkable
  | popoloModel
  deriving DecidableEq, Repr

/-- The four hand-written entity types of the module. -/
inductive EntityKind where
  | person
  | organization
  | post
  | membership
  deriving DecidableEq, Repr

/-- The Python class name of an entity. -/
def entityName : EntityKind → String
  | .person => "Person"
  | .organization => "Organization"
  | .post => "Post"
  | .membership => "Membership"

/-- The base-class list of each entity class, in source order:
`Person(Dateframeable, Timestampable, Permalinkable, PopoloModel)` (line 135),
`Organization(Dateframeable, Timestampable, Permalinkable, PopoloModel)` (line 178),
`Post(Dateframeable, Timestampable, Permalinkable, PopoloModel)` (line 217),
`Membership(Dateframeable, Timestampable, PopoloModel)` (line 241). -/
def basesOf : EntityKind → List Mixin
  | .person => [.dateframeable, .timestampable, .permalinkable, .popoloModel]
  | .organization => [.dateframeable, .timestampable, .permalinkable, .popoloModel]
  | .post => [.dateframeable, .timestampable, .permalinkable, .popoloModel]
  | .membership => [.dateframeable, .timestampable, .popoloModel]

/-! ## The auxiliary-table generator

`_generate_common_tables(model, extra_info)` (models.py lines 88-132)
builds, for an owner entity, one linked model per entry of
`linked_info_types`: class name `base_name + info.name`, a foreign key
back to the owner stored under the attribute named
`base_name.lower()`, with the entry's `related_name` as the reverse
accessor. -/

/-- The abstract base class a generated linked model inherits
(`ContactDetailBase`, `IdentifierBase`, `LinkBase`, `OtherNameBase`,
models.py lines 23-85). -/
inductive BaseClassKind where
  | contactDetailBase
  | identifierBase
  | linkBase
  | otherNameBase
  deriving DecidableEq, Repr

/-- Whether the abstract base class lists `Dateframeable` among its bases:
`ContactDetailBase(Timestampable, Dateframeable, models.Model)` (line 23)
and `OtherNameBase(Dateframeable, models.Model)` (line 72) do;
`IdentifierBase` (line 49) and `LinkBase` (line 61) do not. -/
def baseClassHasDateframeable : BaseClassKind → Bool
  | .contactDetailBase => true
  | .identifierBase => false
  | .linkBase => false
  | .otherNameBase => true

/-- One entry of the `linked_info_types` list. -/
structure LinkedInfo where
  name : String
  related_name : String
  base_class : BaseClassKind
  deriving DecidableEq, Repr

/-- `linked_info_types` (models.py lines 92-118): always ContactDetail,
Link and Source; with `extra_info` also Identifier and OtherName. -/
def linked_info_types (extra_info : Bool) : List LinkedInfo :=
  [⟨"ContactDetail", "contact_details", .contactDetailBase⟩,
   ⟨"Link", "links", .linkBase⟩,
   ⟨"Source", "sources", .linkBase⟩] ++
  (if extra_info then
    [⟨"Identifier", "identifiers", .identifierBase⟩,
     ⟨"OtherName", "other_names", .otherNameBase⟩]
   else [])

/-- A model class produced by the generator: its class name, the name of
the mandatory foreign-key attribute pointing back at the owner, the
reverse accessor (`related_name`) installed on the owner, and the
abstract base class it inherits. -/
structure GeneratedModel where
  className : String
  fkFieldName : String
  relatedName : String
  baseClass : BaseClassKind
  /-- The generated `ForeignKey` is declared without `null=True`
  (models.py lines 129-130), so the back reference is mandatory. -/
  fkNullable : Bool
  deriving DecidableEq, Repr

/-- Python's `str.lower()` on the (ASCII) class names this module uses:
lower-case every character. -/
def pyLower (s : String) : String :=
  ⟨s.data.map Char.toLower⟩

/-- `_generate_common_tables` (models.py lines 88-132):
`link_name = base_name.lower()`; for each entry the generated class is
`type(base_name + info.name, (PopoloModel, info.base_class),
\x7b link_name: ForeignKey(model_path(base_name), related_name=info.related_name) \x7d)`. -/
def generate_common_tables (baseName : String) (extra_info : Bool) :
    List GeneratedModel :=
  let linkName := pyLower baseName
  (linked_info_types extra_info).map fun info =>
    { className := baseName ++ info.name
      fkFieldName := linkName
      relatedName := info.related_name
      baseClass := info.base_class
      fkNullable := false }

/-- The module-level call `_generate_common_tables(Person, True)` (line 175). -/
def generatedForPerson : List GeneratedModel :=
  generate_common_tables "Person" true

/-- The module-level call `_generate_common_tables(Organization, True)` (line 214). -/
def generatedForOrganization : List GeneratedModel :=
  generate_common_tables "Organization" true

/-- The module-level call `_generate_common_tables(Post, False)` (line 238). -/
def generatedForPost : List GeneratedModel :=
  generate_common_tables "Post" false

/-- The module-level call `_generate_common_tables(Membership, False)` (line 272). -/
def generatedForMembership : List GeneratedModel :=
  generate_common_tables "Membership" false

/-- All generated models, in module execution order. -/
def generatedAll : List GeneratedModel :=
  generatedForPerson ++ generatedForOrganization ++
  generatedForPost ++ generatedForMembership

/-- The four generator invocations the module makes, in order:
owner class name paired with the `extra_info` argument. -/
def ownerInvocations : List (String × Bool) :=
  [("Person", true), ("Organization", true), ("Post", false), ("Membership", false)]

/-! ## Module load and configuration -/

/-- The part of the Django settings object this module reads:
`hasattr(settings, 'POPOLO_APP_NAME')` and its value. -/
structure Settings where
  popolo_app_name : Option String

/-- `model_path` (models.py line 21): `settings.POPOLO_APP_NAME + '.' + model_name`. -/
def model_path (appName modelName : String) : String :=
  appName ++ "." ++ modelName

/-- The entity classes defined by executing the module body, in textual
order: each hand-written entity followed by its generated linked models. -/
def allDefinedModelNames : List String :=
  ["Person"] ++ generatedForPerson.map (·.className) ++
  ["Organization"] ++ generatedForOrganization.map (·.className) ++
  ["Post"] ++ generatedForPost.map (·.className) ++
  ["Membership"] ++ generatedForMembership.map (·.className)

/-- Importing `popolo.models`: the `POPOLO_APP_NAME` check (models.py
lines 18-19) runs before any entity class statement, raising
`ImproperlyConfigured` with the quoted message when the setting is
absent; otherwise the module body runs to completion and defines the
entity classes. -/
def popoloModuleLoad (st : Settings) : Except String (List String) :=
  match st.popolo_app_name with
  | none => .error
      "You must configure POPOLO_APP_NAME in your settings to point to your Popolo application"
  | some _ => .ok allDefinedModelNames

/-! ## The pre-save signal wiring -/

/-- The senders `validate_date_fields` is registered for (models.py lines
279-281): `@receiver(pre_save, sender=Person)`, `sender=Organization`,
`sender=Post` — and no other class. -/
def preSaveSenderNames : List String :=
  ["Person", "Organization", "Post"]

/-- `validate_date_fields` (models.py lines 282-284): calls
`obj.full_clean()`; a `ValidationError` propagates out of the signal and
aborts the save. `cleanOk` is the outcome of `full_clean` on the
instance. -/
def validate_date_fields (cleanOk : Bool) : Except String Unit :=
  if cleanOk then .ok () else .error "ValidationError"

/-- Saving an instance of the model named `modelName`: the `pre_save`
signal runs `validate_date_fields` exactly when the model is a
registered sender; `.ok` means the save proceeds to persistence,
`.error` means it is aborted beforehand. -/
def preSaveSignalSend (modelName : String) (cleanOk : Bool) :
    Except String Unit :=
  if modelName ∈ preSaveSenderNames then validate_date_fields cleanOk
  else .ok ()

/-! ## Entity instances and slug sources -/

/-- The fields of a `Person` row this development reasons about
(models.py lines 144-158): `name` is required, the two date fields are
`null=True`. -/
structure PersonInstance where
  name : String
  birth_date : Option String
  death_date : Option String

/-- `Person.slug_source` (models.py lines 165-167): `return self.name`. -/
def Person.slug_source (p : PersonInstance) : String :=
  p.name

/-- The fields of an `Organization` row this development reasons about
(models.py lines 183-201). -/
structure OrganizationInstance where
  name : String
  dissolution_date : Option String
  founding_date : Option String

/-- `Organization.slug_source` (models.py lines 204-206): `return self.name`. -/
def Organization.slug_source (o : OrganizationInstance) : String :=
  o.name

/-- The fields of a `Post` row this development reasons about
(models.py lines 222-227): `label` is required. -/
structure PostInstance where
  label : String
  organization : Nat

/-- `Post.slug_source` (models.py lines 229-231): `return self.label`. -/
def Post.slug_source (q : PostInstance) : String :=
  q.label

/-- The fields of a `Membership` row (models.py lines 246-261).
Foreign keys are modelled as optional row ids; `label` and `role` are
`null=True` character fields. -/
structure MembershipInstance where
  label : Option String
  role : Option String
  person : Option Nat
  organization : Option Nat
  on_behalf_of : Option Nat
  post : Option Nat

/-- `Membership.slug_source` (models.py lines 263-265): `return self.label`. -/
def Membership.slug_source (m : MembershipInstance) : Option String :=
  m.label

/-! ## Membership foreign-key constraints -/

/-- What this development records of a Django `ForeignKey` declaration:
whether `null=True` was passed (Django's default is `null=False`, i.e.
NOT NULL) and the declared `related_name`. -/
structure FKSpec where
  nullable : Bool
  related_name : Option String

/-- `Membership.person` (models.py lines 250-251). -/
def membership_person : FKSpec :=
  { nullable := false, related_name := some "memberships" }

/-- `Membership.organization` (models.py lines 254-255). -/
def membership_organization : FKSpec :=
  { nullable := false, related_name := some "memberships" }

/-- `Membership.on_behalf_of` (models.py lines 256-257). -/
def membership_on_behalf_of : FKSpec :=
  { nullable := false, related_name := some "memberships_on_behalf_of" }

/-- `Membership.post` (models.py lines 260-261): `null=True`. -/
def membership_post : FKSpec :=
  { nullable := true, related_name := some "memberships" }

/-- Whether a foreign-key value satisfies the field's NOT NULL
constraint (checked by `full_clean` and by the database column
constraint alike): a missing value is only allowed when `null=True`. -/
def fkAccepts (spec : FKSpec) (v : Option Nat) : Bool :=
  v.isSome || spec.nullable

/-- The relational constraints a `Membership` row must satisfy to be
persisted: each of its four foreign keys passes its NOT NULL check. -/
def membershipRelationsOk (m : MembershipInstance) : Bool :=
  fkAccepts membership_person m.person &&
  fkAccepts membership_organization m.organization &&
  fkAccepts membership_on_behalf_of m.on_behalf_of &&
  fkAccepts membership_post m.post

/-! ## The Dateframeable mixin -/

/-- Modelled from the spec: the `Dateframeable` mixin lives in
`popolo/behaviors/models.py`, which is not part of the given source
tree.  Per the spec it contributes a validity range of two optional
partial-date fields, start and end. -/
structure DateframeableFields where
  start_date : Option String
  end_date : Option String

/-- Strict lexicographic order on character lists by code point. -/
def charListLt : List Char → List Char → Bool
  | [], [] => false
  | [], _ :: _ => true
  | _ :: _, [] => false
  | a :: as, b :: bs =>
      a.toNat < b.toNat || (a == b && charListLt as bs)

/-- Partial-date order on the `YYYY[-MM[-DD]]` strings: string order,
which on this zero-padded big-endian format is chronological order. -/
def dateStrLe (a b : String) : Bool :=
  a == b || charListLt a.data b.data

/-- Modelled from the spec: `Dateframeable`'s validation — "Date-range
fields (start/end) must be well-formed partial dates and start ≤ end
where both present (enforced by the Dateframeable mixin's validation,
invoked pre-save)" (spec §3).  Each present bound must match the date
pattern, and when both are present the start must not exceed the end. -/
def dateframeableCleanOk (d : DateframeableFields) : Bool :=
  (match d.start_date with
   | none => true
   | some s => matchesDatePattern s) &&
  (match d.end_date with
   | none => true
   | some e => matchesDatePattern e) &&
  (match d.start_date, d.end_date with
   | some s, some e => dateStrLe s e
   | _, _ => true)

/-- The names of all model classes that list `Dateframeable` among their
bases: every hand-written entity does (lines 135, 178, 217, 241), and a
generated linked model does exactly when its abstract base does. -/
def dateframeableModelNames : List String :=
  ([EntityKind.person, .organization, .post, .membership].filter
    (fun k => Mixin.dateframeable ∈ basesOf k)).map entityName ++
  (generatedAll.filter (fun g => baseClassHasDateframeable g.baseClass)).map
    (·.className)

/-! ## Reverse accessors on Person

Django installs, for each `ForeignKey` pointing at a model, a
reverse-collection descriptor on the *concrete* target class, named
`related_name` when one is declared and `<model>_set` otherwise.  The
concrete host-application `Person` class precedes the abstract
`popolo.models.Person` base in the method-resolution order, so an
attribute set on it shadows a property of the same name defined on the
abstract base. -/

/-- The name of the reverse accessor a `ForeignKey` on `modelName`
installs on its target: the declared `related_name`, defaulting to the
lowercased model name followed by `_set`. -/
def fkReverseAccessorName (modelName : String) (related_name : Option String) :
    String :=
  related_name.getD (pyLower modelName ++ "_set")

/-- What an attribute of the (concrete) `Person` class resolves to. -/
inductive PersonAttr where
  | reverseManager (sourceModel fkField : String)
  | propertyGetter (readsAttr : String)
  | missing
  deriving DecidableEq, Repr

/-- Attributes installed on the concrete `Person` class: the reverse
descriptors of the foreign keys that target `Person` — one per generated
linked model (models.py lines 129-130) and one for `Membership.person`
(lines 250-251, `related_name='memberships'`). -/
def concretePersonClassAttrs : List (String × PersonAttr) :=
  generatedForPerson.map
    (fun g => (g.relatedName, PersonAttr.reverseManager g.className g.fkFieldName)) ++
  [(fkReverseAccessorName "Membership" membership_person.related_name,
    PersonAttr.reverseManager "Membership" "person")]

/-- The relevant attribute of the abstract `Person` base class: the
`memberships` property (models.py lines 161-163), whose body reads
`self.membership_set.all()`. -/
def abstractPersonClassAttrs : List (String × PersonAttr) :=
  [("memberships", PersonAttr.propertyGetter "membership_set")]

/-- Python attribute resolution on a concrete `Person` instance for
class-level attributes: the concrete class's own dictionary is searched
before the abstract base's. -/
def personAttrLookup (a : String) : PersonAttr :=
  match (concretePersonClassAttrs.find? (fun p => p.1 == a)).map (·.2) with
  | some v => v
  | none =>
    match (abstractPersonClassAttrs.find? (fun p => p.1 == a)).map (·.2) with
    | some v => v
    | none => PersonAttr.missing

/-- A persisted `Membership` row, as far as the reverse collection is
concerned: its id and its `person` foreign key. -/
structure MembershipRow where
  id : Nat
  person : Nat
  deriving DecidableEq, Repr

/-- Evaluating `p.memberships` on a concrete `Person` with id `pid`
against the table `db` of `Membership` rows: resolve the attribute; a
reverse manager for `Membership.person` yields the rows whose `person`
column equals `pid`; a property getter runs its body, which reads the
named attribute and fails with `AttributeError` unless that attribute
exists and is itself such a manager. -/
def personGetMemberships (db : List MembershipRow) (pid : Nat) :
    Except String (List MembershipRow) :=
  match personAttrLookup "memberships" with
  | PersonAttr.reverseManager "Membership" "person" =>
      .ok (db.filter (fun r => r.person == pid))
  | PersonAttr.reverseManager _ _ => .error "TypeError"
  | PersonAttr.propertyGetter body =>
      match personAttrLookup body with
      | PersonAttr.reverseManager "Membership" "person" =>
          .ok (db.filter (fun r => r.person == pid))
      | _ => .error "AttributeError"
  | PersonAttr.missing => .error "AttributeError"

/-! ## Calendar reference -/

/-- Days in a month of the proleptic Gregorian calendar, for stating that
the date pattern does not check calendar validity. -/
def gregorianDaysInMonth (year month : Nat) : Nat :=
  if month == 2 then
    if year % 4 == 0 && (year % 100 != 0 || year % 400 == 0) then 29 else 28
  else if month == 4 || month == 6 || month == 9 || month == 11 then 30
  else 31

/-! ## Claims -/

theorem string_length_eq_data_length (s : String) : s.length = s.data.length :=
  rfl

/-- C1 counterexample: the claim says all four date fields are accepted
iff they match the pattern, but `Person.birth_date` and
`Person.death_date` carry no validator, so the 10-character string
"notadate!!", which does not match the pattern, passes `Person`'s
pre-save validation of the death-date field. -/
theorem C1_person_dates_lack_regex :
    personDateFieldAccepts (some "notadate!!") = true ∧
    matchesDatePattern "notadate!!" = false := by
  decide

/-- C1 amended: Organization's `founding_date`/`dissolution_date`, when
present, are accepted by pre-save validation iff they match
`^[0-9]\x7b4\x7d(-[0-9]\x7b2\x7d)\x7b0,2\x7d$`; Person's `birth_date`/`death_date` have no
pattern validator and are accepted exactly when their length is at most
10 characters, regardless of the pattern. -/
theorem C1_amended_date_validation :
    (∀ s : String,
      organizationDateFieldAccepts (some s) = true ↔ matchesDatePattern s = true) ∧
    (∀ s : String,
      personDateFieldAccepts (some s) = true ↔ s.length ≤ 10) := by
  constructor
  · intro s
    simp only [organizationDateFieldAccepts, cleanCharField, List.all_cons,
      List.all_nil, Bool.and_true, Bool.and_eq_true, decide_eq_true_eq]
    constructor
    · rintro ⟨-, h⟩
      exact h
    · intro h
      refine ⟨?_, h⟩
      rw [string_length_eq_data_length]
      exact datePattern_length h
  · intro s
    simp [personDateFieldAccepts, cleanCharField]

/-- C1 amended witness at "2020-01-01". -/
theorem C1_amended_date_validation_witness :
    organizationDateFieldAccepts (some "2020-01-01") = true :=
  (C1_amended_date_validation.1 "2020-01-01").mpr (by decide)

/-- C2: the pre-save hook runs `full_clean` for Person, Organization and
Post, and the save goes through exactly when validation passes; a
Membership save is never intercepted by the hook, since Membership is
not among the registered senders. -/
theorem C2_presave_validation_wiring :
    (∀ cleanOk : Bool,
      preSaveSignalSend "Person" cleanOk = Except.ok () ↔ cleanOk = true) ∧
    (∀ cleanOk : Bool,
      preSaveSignalSend "Organization" cleanOk = Except.ok () ↔ cleanOk = true) ∧
    (∀ cleanOk : Bool,
      preSaveSignalSend "Post" cleanOk = Except.ok () ↔ cleanOk = true) ∧
    (∀ cleanOk : Bool, preSaveSignalSend "Membership" cleanOk = Except.ok ()) ∧
    "Membership" ∉ preSaveSenderNames := by
  refine ⟨fun c => ?_, fun c => ?_, fun c => ?_, fun c => ?_, by decide⟩ <;>
    cases c <;> simp [preSaveSignalSend, validate_date_fields, preSaveSenderNames]

/-- C2 witness: a Person instance failing `full_clean` is not saved,
while a Membership instance failing `full_clean` is saved untouched by
the hook. -/
theorem C2_presave_validation_wiring_witness :
    preSaveSignalSend "Person" true = Except.ok () ∧
    preSaveSignalSend "Membership" false = Except.ok () :=
  ⟨(C2_presave_validation_wiring.1 true).mpr rfl,
   C2_presave_validation_wiring.2.2.2.1 false⟩

/-- C4: importing the module with no `POPOLO_APP_NAME` in the settings
raises `ImproperlyConfigured` with the descriptive message, defining no
entity class; with the setting present the module defines all twenty
entity classes and raises no error. -/
theorem C4_app_name_required :
    popoloModuleLoad ⟨none⟩ = Except.error
      "You must configure POPOLO_APP_NAME in your settings to point to your Popolo application" ∧
    (∀ app : String, popoloModuleLoad ⟨some app⟩ = Except.ok
      ["Person", "PersonContactDetail", "PersonLink", "PersonSource",
       "PersonIdentifier", "PersonOtherName",
       "Organization", "OrganizationContactDetail", "OrganizationLink",
       "OrganizationSource", "OrganizationIdentifier", "OrganizationOtherName",
       "Post", "PostContactDetail", "PostLink", "PostSource",
       "Membership", "MembershipContactDetail", "MembershipLink",
       "MembershipSource"]) :=
  ⟨rfl, fun _ => rfl⟩

/-- C9: the date check is shape-only: "1990-02-30" matches the pattern,
so it passes the regex validator attached to Organization's date fields
and a Person with that death date passes pre-save validation, although
February 1990 has only 28 days. -/
theorem C9_pattern_shape_only :
    matchesDatePattern "1990-02-30" = true ∧
    organizationDateFieldAccepts (some "1990-02-30") = true ∧
    personDateFieldAccepts (some "1990-02-30") = true ∧
    gregorianDaysInMonth 1990 2 < 30 := by
  decide

/-- C3 counterexample: the claim says each of the four entity types
carries the slug (permalink) capability, but `Membership`'s base-class
list (models.py line 241) omits `Permalinkable`. -/
theorem C3_membership_not_permalinkable :
    Mixin.permalinkable ∉ basesOf EntityKind.membership := by
  decide

/-- C3 amended: Person, Organization and Post carry the permalink
capability, with slug sources Person.name, Organization.name and
Post.label; Membership defines `slug_source` as its label but does not
inherit `Permalinkable`, so it carries no slug capability. -/
theorem C3_amended_slug_sources :
    Mixin.permalinkable ∈ basesOf EntityKind.person ∧
    Mixin.permalinkable ∈ basesOf EntityKind.organization ∧
    Mixin.permalinkable ∈ basesOf EntityKind.post ∧
    Mixin.permalinkable ∉ basesOf EntityKind.membership ∧
    (∀ p : PersonInstance, Person.slug_source p = p.name) ∧
    (∀ o : OrganizationInstance, Organization.slug_source o = o.name) ∧
    (∀ q : PostInstance, Post.slug_source q = q.label) ∧
    (∀ m : MembershipInstance, Membership.slug_source m = m.label) :=
  ⟨by decide, by decide, by decide, by decide,
   fun _ => rfl, fun _ => rfl, fun _ => rfl, fun _ => rfl⟩

/-- C3 amended witness: a Person named "Jane Doe" has slug source
"Jane Doe". -/
theorem C3_amended_slug_sources_witness :
    Person.slug_source ⟨"Jane Doe", none, none⟩ = "Jane Doe" :=
  C3_amended_slug_sources.2.2.2.2.1 ⟨"Jane Doe", none, none⟩

/-- C5: for every generator invocation the module makes, each produced
class is named owner-name plus kind name, its mandatory back-reference
foreign key is named the owner's lowercased class name, and its reverse
accessor is the pluralized kind name. -/
theorem C5_generated_naming :
    generatedForPerson.map (fun g => (g.className, g.fkFieldName, g.relatedName)) =
      [("PersonContactDetail", "person", "contact_details"),
       ("PersonLink", "person", "links"),
       ("PersonSource", "person", "sources"),
       ("PersonIdentifier", "person", "identifiers"),
       ("PersonOtherName", "person", "other_names")] ∧
    generatedForOrganization.map (fun g => (g.className, g.fkFieldName, g.relatedName)) =
      [("OrganizationContactDetail", "organization", "contact_details"),
       ("OrganizationLink", "organization", "links"),
       ("OrganizationSource", "organization", "sources"),
       ("OrganizationIdentifier", "organization", "identifiers"),
       ("OrganizationOtherName", "organization", "other_names")] ∧
    generatedForPost.map (fun g => (g.className, g.fkFieldName, g.relatedName)) =
      [("PostContactDetail", "post", "contact_details"),
       ("PostLink", "post", "links"),
       ("PostSource", "post", "sources")] ∧
    generatedForMembership.map (fun g => (g.className, g.fkFieldName, g.relatedName)) =
      [("MembershipContactDetail", "membership", "contact_details"),
       ("MembershipLink", "membership", "links"),
       ("MembershipSource", "membership", "sources")] ∧
    (∀ g ∈ generatedAll, g.fkNullable = false) ∧
    (∀ p ∈ ownerInvocations, ∀ g ∈ generate_common_tables p.1 p.2,
      g.fkFieldName = pyLower p.1) := by
  refine ⟨by decide, by decide, by decide, by decide, by decide, ?_⟩
  decide

/-- C5 witness: the generator invocation for Person yields back-reference
fields named "person". -/
theorem C5_generated_naming_witness :
    ∀ g ∈ generate_common_tables "Person" true, g.fkFieldName = "person" := by
  intro g hg
  exact C5_generated_naming.2.2.2.2.2 ("Person", true) (by decide) g hg

/-- C6: every owner gets ContactDetail, Link and Source side-entities;
Identifier and OtherName are generated only for Person and Organization
(invoked with `extra_info=True`), not for Post or Membership. -/
theorem C6_generated_kinds :
    generatedForPerson.map (·.className) =
      ["PersonContactDetail", "PersonLink", "PersonSource",
       "PersonIdentifier", "PersonOtherName"] ∧
    generatedForOrganization.map (·.className) =
      ["OrganizationContactDetail", "OrganizationLink", "OrganizationSource",
       "OrganizationIdentifier", "OrganizationOtherName"] ∧
    generatedForPost.map (·.className) =
      ["PostContactDetail", "PostLink", "PostSource"] ∧
    generatedForMembership.map (·.className) =
      ["MembershipContactDetail", "MembershipLink", "MembershipSource"] ∧
    (∀ g ∈ generatedForPost, g.baseClass ≠ BaseClassKind.identifierBase ∧
      g.baseClass ≠ BaseClassKind.otherNameBase) ∧
    (∀ g ∈ generatedForMembership, g.baseClass ≠ BaseClassKind.identifierBase ∧
      g.baseClass ≠ BaseClassKind.otherNameBase) := by
  decide

/-- C7: a Membership row is persisted exactly when its person,
organization and on_behalf_of foreign keys are all present; `post` is
declared `null=True` while the other three are NOT NULL, so omitting any
of the three required relations is rejected and nothing is persisted. -/
theorem C7_membership_required_relations :
    (∀ m : MembershipInstance,
      membershipRelationsOk m = true ↔
        (m.person.isSome = true ∧ m.organization.isSome = true ∧
         m.on_behalf_of.isSome = true)) ∧
    membership_person.nullable = false ∧
    membership_organization.nullable = false ∧
    membership_on_behalf_of.nullable = false ∧
    membership_post.nullable = true := by
  refine ⟨fun m => ?_, rfl, rfl, rfl, rfl⟩
  simp [membershipRelationsOk, fkAccepts, membership_person,
    membership_organization, membership_on_behalf_of, membership_post,
    and_assoc]

/-- C7 witness: a Membership with person, organization and on_behalf_of
present and no post is accepted; dropping the person is rejected. -/
theorem C7_membership_required_relations_witness :
    membershipRelationsOk ⟨none, none, some 1, some 2, some 3, none⟩ = true ∧
    membershipRelationsOk ⟨none, none, none, some 2, some 3, none⟩ = false :=
  ⟨(C7_membership_required_relations.1 _).mpr ⟨rfl, rfl, rfl⟩,
   by
    have h := C7_membership_required_relations.1
      ⟨none, none, none, some 2, some 3, none⟩
    revert h
    decide⟩

/-- C8 counterexample: the claim says the start/end constraint of every
date-frameable entity is enforced by validation invoked pre-save, but
`Membership` is date-frameable and is not a registered sender of the
pre-save hook (and neither is any generated ContactDetail/OtherName
model). -/
theorem C8_membership_not_wired :
    "Membership" ∈ dateframeableModelNames ∧
    "Membership" ∉ preSaveSenderNames ∧
    "PersonContactDetail" ∈ dateframeableModelNames ∧
    "PersonContactDetail" ∉ preSaveSenderNames := by
  decide

/-- C8 amended: for every date-frameable entity the Dateframeable
validation accepts a range with both bounds present only when
start ≤ end; the pre-save hook, however, invokes full validation only
for Person, Organization and Post — Membership and the generated
ContactDetail/OtherName models carry the constraint without being wired
to the hook. -/
theorem C8_amended_dateframe_validation :
    (∀ s e : String,
      dateframeableCleanOk ⟨some s, some e⟩ = true → dateStrLe s e = true) ∧
    (∀ n ∈ preSaveSenderNames, n ∈ dateframeableModelNames) ∧
    dateframeableModelNames =
      ["Person", "Organization", "Post", "Membership",
       "PersonContactDetail", "PersonOtherName",
       "OrganizationContactDetail", "OrganizationOtherName",
       "PostContactDetail", "MembershipContactDetail"] ∧
    preSaveSenderNames = ["Person", "Organization", "Post"] := by
  refine ⟨fun s e h => ?_, by decide, by decide, rfl⟩
  simp only [dateframeableCleanOk, Bool.and_eq_true] at h
  exact h.2

/-- C8 amended witness: a range from "2000" to "2001-05" validates and
indeed has start ≤ end; "Person" is both a registered sender and
date-frameable. -/
theorem C8_amended_dateframe_validation_witness :
    dateStrLe "2000" "2001-05" = true ∧ "Person" ∈ dateframeableModelNames :=
  ⟨C8_amended_dateframe_validation.1 "2000" "2001-05" (by decide),
   C8_amended_dateframe_validation.2.1 "Person" (by decide)⟩

/-- C10: on a concrete Person with id `pid`, the `memberships` attribute
resolves to the reverse-collection descriptor installed by
`Membership.person` (whose `related_name` is "memberships"), which
shadows the inherited property, and it evaluates to exactly the
Membership rows whose `person` column references `pid`; the
`membership_set` attribute the property body reads does not exist. -/
theorem C10_memberships_reverse_collection :
    (∀ (db : List MembershipRow) (pid : Nat),
      personGetMemberships db pid =
        Except.ok (db.filter (fun r => r.person == pid))) ∧
    personAttrLookup "memberships" =
      PersonAttr.reverseManager "Membership" "person" ∧
    fkReverseAccessorName "Membership" membership_person.related_name =
      "memberships" ∧
    personAttrLookup "membership_set" = PersonAttr.missing := by
  refine ⟨fun db pid => ?_, by decide, by decide, by decide⟩
  rfl

/-- C10 witness: with rows for persons 5, 6 and 5, person 5's
memberships are exactly its two rows. -/
theorem C10_memberships_reverse_collection_witness :
    personGetMemberships [⟨1, 5⟩, ⟨2, 6⟩, ⟨3, 5⟩] 5 =
      Except.ok [⟨1, 5⟩, ⟨3, 5⟩] :=
  C10_memberships_reverse_collection.1 [⟨1, 5⟩, ⟨2, 6⟩, ⟨3, 5⟩] 5

/-- C6 witness: the first Post side-entity, PostContactDetail, is
neither an Identifier nor an OtherName model. -/
theorem C6_generated_kinds_witness :
    (⟨"PostContactDetail", "post", "contact_details",
      BaseClassKind.contactDetailBase, false⟩ : GeneratedModel).baseClass ≠
        BaseClassKind.identifierBase ∧
    (⟨"PostContactDetail", "post", "contact_details",
      BaseClassKind.contactDetailBase, false⟩ : GeneratedModel).baseClass ≠
        BaseClassKind.otherNameBase :=
  C6_generated_kinds.2.2.2.2.1 _ (by decide)
